import Mathlib

/-!
Verification development for an OpenRGB TCP client.

The repository consists of a binary protocol codec (`orgb/src/protocol.rs`,
built on the nom parser-combinator library) and a connection engine
(`orgb/src/connection.rs`).  We shallowly embed both here:

* a byte stream is a `List Nat`, each element the value of one `u8`;
* a nom parser over `&[u8]` becomes `List Nat → Option (α × List Nat)`
  (`none` models both a nom parse error and a Rust panic, since every
  failure on the receive path is fatal for the process);
* Rust `String` values are represented by their UTF-8 byte lists;
* machine integers are `Nat` with explicit reductions modulo `2^16` or
  `2^32` exactly where the Rust code's fixed-width types make overflow
  or wrapping observable;
* the native byte order of the wire is taken to be little-endian
  (the spec leaves it as the host's order; the embedding fixes one).
-/

/-- A parser over a byte stream, modeling a nom parser over a byte slice:
it either fails or returns a value together with the unconsumed rest. -/
def Parser (α : Type) : Type := List Nat → Option (α × List Nat)

/-- Model of nom's `bytes::complete::take n`: consume exactly `n` bytes,
failing when fewer are available.  Also used to model `Read::read_exact`
into an `n`-byte buffer. -/
def nomTake (n : Nat) : Parser (List Nat) := fun input =>
  if n ≤ input.length then some (input.take n, input.drop n) else none

/-- Model of nom's `bytes::complete::tag t`: the input must start with the
bytes of `t`, which are consumed. -/
def nomTag (t : List Nat) : Parser (List Nat) := fun input =>
  if input.take t.length = t then some (t, input.drop t.length) else none

/-- Model of nom's `multi::count p n`: run `p` exactly `n` times. -/
def nomCount {α : Type} (p : Parser α) : Nat → Parser (List α)
  | 0 => fun input => some ([], input)
  | n + 1 => fun input =>
    match p input with
    | none => none
    | some (x, input) =>
      match nomCount p n input with
      | none => none
      | some (xs, input) => some (x :: xs, input)

/-- Model of nom's `combinator::map p f`. -/
def nomMap {α β : Type} (p : Parser α) (f : α → β) : Parser β := fun input =>
  match p input with
  | none => none
  | some (x, input) => some (f x, input)

/-- Validity of a byte list as UTF-8, following the byte-range table used
by `std::str::from_utf8` (continuation bytes `80..BF`, with the restricted
second-byte ranges for `E0`, `ED`, `F0`, `F4` that exclude overlong forms
and surrogates). -/
def isUtf8 : List Nat → Bool
  | [] => true
  | b :: rest =>
    if b ≤ 0x7F then isUtf8 rest
    else if 0xC2 ≤ b ∧ b ≤ 0xDF then
      match rest with
      | b1 :: rest => if 0x80 ≤ b1 ∧ b1 ≤ 0xBF then isUtf8 rest else false
      | [] => false
    else if b = 0xE0 then
      match rest with
      | b1 :: b2 :: rest =>
        if (0xA0 ≤ b1 ∧ b1 ≤ 0xBF) ∧ (0x80 ≤ b2 ∧ b2 ≤ 0xBF) then isUtf8 rest else false
      | _ => false
    else if (0xE1 ≤ b ∧ b ≤ 0xEC) ∨ (0xEE ≤ b ∧ b ≤ 0xEF) then
      match rest with
      | b1 :: b2 :: rest =>
        if (0x80 ≤ b1 ∧ b1 ≤ 0xBF) ∧ (0x80 ≤ b2 ∧ b2 ≤ 0xBF) then isUtf8 rest else false
      | _ => false
    else if b = 0xED then
      match rest with
      | b1 :: b2 :: rest =>
        if (0x80 ≤ b1 ∧ b1 ≤ 0x9F) ∧ (0x80 ≤ b2 ∧ b2 ≤ 0xBF) then isUtf8 rest else false
      | _ => false
    else if b = 0xF0 then
      match rest with
      | b1 :: b2 :: b3 :: rest =>
        if (0x90 ≤ b1 ∧ b1 ≤ 0xBF) ∧ (0x80 ≤ b2 ∧ b2 ≤ 0xBF) ∧ (0x80 ≤ b3 ∧ b3 ≤ 0xBF) then
          isUtf8 rest
        else false
      | _ => false
    else if 0xF1 ≤ b ∧ b ≤ 0xF3 then
      match rest with
      | b1 :: b2 :: b3 :: rest =>
        if (0x80 ≤ b1 ∧ b1 ≤ 0xBF) ∧ (0x80 ≤ b2 ∧ b2 ≤ 0xBF) ∧ (0x80 ≤ b3 ∧ b3 ≤ 0xBF) then
          isUtf8 rest
        else false
      | _ => false
    else if b = 0xF4 then
      match rest with
      | b1 :: b2 :: b3 :: rest =>
        if (0x80 ≤ b1 ∧ b1 ≤ 0x8F) ∧ (0x80 ≤ b2 ∧ b2 ≤ 0xBF) ∧ (0x80 ≤ b3 ∧ b3 ≤ 0xBF) then
          isUtf8 rest
        else false
      | _ => false
    else false

/-! ## Data model (protocol.rs) -/

/-- `enum ControllerType`, `#[repr(u32)]` with discriminants 0..9. -/
inductive ControllerType : Type
  | motherboard
  | dram
  | gpu
  | cooler
  | ledStrip
  | keyboard
  | mouse
  | mousemat
  | headset
  | headsetStand
deriving DecidableEq

/-- `ControllerType::try_from` on a `u32` discriminant (`TryFromPrimitive`). -/
def ControllerType.tryFrom : Nat → Option ControllerType
  | 0 => some .motherboard
  | 1 => some .dram
  | 2 => some .gpu
  | 3 => some .cooler
  | 4 => some .ledStrip
  | 5 => some .keyboard
  | 6 => some .mouse
  | 7 => some .mousemat
  | 8 => some .headset
  | 9 => some .headsetStand
  | _ => none

/-- `enum ZoneType`, `#[repr(u32)]` with discriminants 0..2. -/
inductive ZoneType : Type
  | single
  | linear
  | matrix
deriving DecidableEq

/-- `ZoneType::try_from` on a `u32` discriminant. -/
def ZoneType.tryFrom : Nat → Option ZoneType
  | 0 => some .single
  | 1 => some .linear
  | 2 => some .matrix
  | _ => none

/-- `enum ColorMode`, `#[repr(u32)]` with discriminants 0..3. -/
inductive ColorMode : Type
  | noConfigurableColors
  | perLed
  | modeSpecific
  | random
deriving DecidableEq

/-- `ColorMode::try_from` on a `u32` discriminant. -/
def ColorMode.tryFrom : Nat → Option ColorMode
  | 0 => some .noConfigurableColors
  | 1 => some .perLed
  | 2 => some .modeSpecific
  | 3 => some .random
  | _ => none

/-- `struct Rgb(u8, u8, u8)`: the three channel values. -/
structure Rgb : Type where
  r : Nat
  g : Nat
  b : Nat
deriving DecidableEq

/-- `struct Led { name: String, value: u32 }`; the name is its UTF-8 bytes. -/
structure Led : Type where
  name : List Nat
  value : Nat
deriving DecidableEq

/-- `struct ZoneMatrix { height: u32, width: u32, data: Vec<u32> }`. -/
structure ZoneMatrix : Type where
  height : Nat
  width : Nat
  data : List Nat
deriving DecidableEq

/-- `struct Zone`. -/
structure Zone : Type where
  name : List Nat
  ty : ZoneType
  leds_min : Nat
  leds_max : Nat
  leds_count : Nat
  matrix : Option ZoneMatrix
deriving DecidableEq

/-- `struct Mode`.  The `flags` bitset is kept as its raw `u32` value,
matching `ModeFlags::from_bits_retain` which preserves unknown bits. -/
structure Mode : Type where
  name : List Nat
  value : Nat
  flags : Nat
  speed_min : Nat
  speed_max : Nat
  colors_min : Nat
  colors_max : Nat
  speed : Nat
  direction : Nat
  color_mode : ColorMode
  colors : List Rgb
deriving DecidableEq

/-- `struct ControllerData`. -/
structure ControllerData : Type where
  ty : ControllerType
  name : List Nat
  description : List Nat
  version : List Nat
  serial : List Nat
  location : List Nat
  modes : List Mode
  active_mode : Nat
  zones : List Zone
  leds : List Led
  colors : List Rgb
deriving DecidableEq

/-- `struct PacketHeader { _dev_idx, pkt_id, pkt_size: u32 }`. -/
structure PacketHeader : Type where
  dev_idx : Nat
  pkt_id : Nat
  pkt_size : Nat
deriving DecidableEq

/-- `enum Response`. -/
inductive Response : Type
  | controllerCount (n : Nat)
  | controllerData (cd : ControllerData)
  | protocolVersion (v : Nat)
  | deviceListUpdated
deriving DecidableEq

/-- `enum Request`.  Strings are UTF-8 byte lists; borrowed slices become
lists. -/
inductive Request : Type
  | controllerCount
  | controllerData (controller_idx : Nat)
  | protocolVersion (v : Nat)
  | setClientName (name : List Nat)
  | resizeZone (controller_idx zone_idx new_size : Nat)
  | updateLeds (controller_idx : Nat) (colors : List Rgb)
  | updateZoneLeds (controller_idx zone_idx : Nat) (colors : List Rgb)
  | updateSingleLed (controller_idx led_idx : Nat) (color : Rgb)
  | setCustomMode (controller_idx : Nat)
  | updateMode (controller_idx mode_idx : Nat) (mode : Mode)
  | saveMode (controller_idx mode_idx : Nat) (mode : Mode)

/-! ## mod parse (protocol.rs) -/

namespace parse

/-- `complete::u16(Endianness::Native)`: two bytes, little-endian. -/
def u16 : Parser Nat := fun input =>
  match input with
  | b0 :: b1 :: input => some (b0 + 256 * b1, input)
  | _ => none

/-- `complete::u32(Endianness::Native)`: four bytes, little-endian. -/
def u32 : Parser Nat := fun input =>
  match input with
  | b0 :: b1 :: b2 :: b3 :: input =>
    some (b0 + 256 * b1 + 65536 * b2 + 16777216 * b3, input)
  | _ => none

/-- `parse::controller_type`: a u32 converted through `try_from`; an
unknown discriminant panics (`expect`), modeled as failure. -/
def controller_type : Parser ControllerType := fun input =>
  match u32 input with
  | none => none
  | some (x, input) =>
    match ControllerType.tryFrom x with
    | none => none
    | some t => some (t, input)

/-- `parse::zone_type`. -/
def zone_type : Parser ZoneType := fun input =>
  match u32 input with
  | none => none
  | some (x, input) =>
    match ZoneType.tryFrom x with
    | none => none
    | some t => some (t, input)

/-- `parse::color_mode`. -/
def color_mode : Parser ColorMode := fun input =>
  match u32 input with
  | none => none
  | some (x, input) =>
    match ColorMode.tryFrom x with
    | none => none
    | some t => some (t, input)

/-- `parse::null_terminated_string`: `take(len_with_terminator - 1)` where
the subtraction is on a `u16` — a zero length field wraps to a demand of
65535 bytes in release builds (in debug builds it panics, which is also a
failure of the returned parser) — then a UTF-8 check (`expect`, modeled as
failure), then `tag(b"\0")`.  The decoded string is returned as its
byte list. -/
def null_terminated_string (len_with_terminator : Nat) : Parser (List Nat) := fun input =>
  match nomTake ((len_with_terminator + 65535) % 65536) input with
  | none => none
  | some (s, input) =>
    if isUtf8 s then
      match nomTag [0] input with
      | none => none
      | some (_, input) => some (s, input)
    else none

/-- `parse::color`: one u32, whose native-order bytes give R, G, B (the
fourth byte is discarded). -/
def color : Parser Rgb := fun input =>
  match u32 input with
  | none => none
  | some (v, input) =>
    some ({ r := v % 256, g := v / 256 % 256, b := v / 65536 % 256 }, input)

/-- `parse::led`: a u16 name length, the name string, a u32 value. -/
def led : Parser Led := fun input =>
  match u16 input with
  | none => none
  | some (name_len, input) =>
    match null_terminated_string name_len input with
    | none => none
    | some (name, input) =>
      match u32 input with
      | none => none
      | some (value, input) => some ({ name := name, value := value }, input)

/-- `parse::zone_matrix`: u32 height, u32 width, then `height * width`
(a `u32` product, hence reduced modulo `2^32`) u32 cells. -/
def zone_matrix : Parser ZoneMatrix := fun input =>
  match u32 input with
  | none => none
  | some (height, input) =>
    match u32 input with
    | none => none
    | some (width, input) =>
      match nomCount u32 (height * width % 4294967296) input with
      | none => none
      | some (data, input) =>
        some ({ height := height, width := width, data := data }, input)

/-- `parse::zone`: name, zone type, three u32 LED bounds, a u16 matrix
byte length; a zero matrix length yields no matrix, a nonzero one is
followed by a `ZoneMatrix`. -/
def zone : Parser Zone := fun input =>
  match u16 input with
  | none => none
  | some (name_len, input) =>
    match null_terminated_string name_len input with
    | none => none
    | some (name, input) =>
      match zone_type input with
      | none => none
      | some (ty, input) =>
        match u32 input with
        | none => none
        | some (leds_min, input) =>
          match u32 input with
          | none => none
          | some (leds_max, input) =>
            match u32 input with
            | none => none
            | some (leds_count, input) =>
              match u16 input with
              | none => none
              | some (matrix_len, input) =>
                match
                  if matrix_len = 0 then some ((none : Option ZoneMatrix), input)
                  else
                    match zone_matrix input with
                    | none => none
                    | some (matrix, input) => some (some matrix, input)
                with
                | none => none
                | some (matrix, input) =>
                  some ({ name := name, ty := ty, leds_min := leds_min,
                          leds_max := leds_max, leds_count := leds_count,
                          matrix := matrix }, input)

/-- `parse::mode`. -/
def mode : Parser Mode := fun input =>
  match u16 input with
  | none => none
  | some (name_len, input) =>
    match null_terminated_string name_len input with
    | none => none
    | some (name, input) =>
      match u32 input with
      | none => none
      | some (value, input) =>
        match u32 input with
        | none => none
        | some (flags, input) =>
          match u32 input with
          | none => none
          | some (speed_min, input) =>
            match u32 input with
            | none => none
            | some (speed_max, input) =>
              match u32 input with
              | none => none
              | some (colors_min, input) =>
                match u32 input with
                | none => none
                | some (colors_max, input) =>
                  match u32 input with
                  | none => none
                  | some (speed, input) =>
                    match u32 input with
                    | none => none
                    | some (direction, input) =>
                      match color_mode input with
                      | none => none
                      | some (cm, input) =>
                        match u16 input with
                        | none => none
                        | some (num_colors, input) =>
                          match nomCount color num_colors input with
                          | none => none
                          | some (colors, input) =>
                            some ({ name := name, value := value, flags := flags,
                                    speed_min := speed_min, speed_max := speed_max,
                                    colors_min := colors_min, colors_max := colors_max,
                                    speed := speed, direction := direction,
                                    color_mode := cm, colors := colors }, input)

/-- `parse::controller_data`: the composite decode order of §4.1 — total
size (discarded), type, five strings, mode count, active mode, modes,
zone count, zones, LED count, LEDs, color count, colors. -/
def controller_data : Parser ControllerData := fun input =>
  match u32 input with
  | none => none
  | some (_size, input) =>
    match controller_type input with
    | none => none
    | some (ty, input) =>
      match u16 input with
      | none => none
      | some (name_len, input) =>
        match null_terminated_string name_len input with
        | none => none
        | some (name, input) =>
          match u16 input with
          | none => none
          | some (description_len, input) =>
            match null_terminated_string description_len input with
            | none => none
            | some (description, input) =>
              match u16 input with
              | none => none
              | some (version_len, input) =>
                match null_terminated_string version_len input with
                | none => none
                | some (version, input) =>
                  match u16 input with
                  | none => none
                  | some (serial_len, input) =>
                    match null_terminated_string serial_len input with
                    | none => none
                    | some (serial, input) =>
                      match u16 input with
                      | none => none
                      | some (location_len, input) =>
                        match null_terminated_string location_len input with
                        | none => none
                        | some (location, input) =>
                          match u16 input with
                          | none => none
                          | some (num_modes, input) =>
                            match u32 input with
                            | none => none
                            | some (active_mode, input) =>
                              match nomCount mode num_modes input with
                              | none => none
                              | some (modes, input) =>
                                match u16 input with
                                | none => none
                                | some (num_zones, input) =>
                                  match nomCount zone num_zones input with
                                  | none => none
                                  | some (zones, input) =>
                                    match u16 input with
                                    | none => none
                                    | some (num_leds, input) =>
                                      match nomCount led num_leds input with
                                      | none => none
                                      | some (leds, input) =>
                                        match u16 input with
                                        | none => none
                                        | some (num_colors, input) =>
                                          match nomCount color num_colors input with
                                          | none => none
                                          | some (colors, input) =>
                                            some ({ ty := ty, name := name,
                                                    description := description,
                                                    version := version, serial := serial,
                                                    location := location, modes := modes,
                                                    active_mode := active_mode,
                                                    zones := zones, leds := leds,
                                                    colors := colors }, input)

/-- `parse::packet_header`: the `"ORGB"` magic tag then three u32 fields. -/
def packet_header : Parser PacketHeader := fun input =>
  match nomTag [79, 82, 71, 66] input with
  | none => none
  | some (_, input) =>
    match u32 input with
    | none => none
    | some (dev_idx, input) =>
      match u32 input with
      | none => none
      | some (pkt_id, input) =>
        match u32 input with
        | none => none
        | some (pkt_size, input) =>
          some ({ dev_idx := dev_idx, pkt_id := pkt_id, pkt_size := pkt_size }, input)

/-- `parse::response`: dispatch on the header's message id; any id other
than 0, 1, 40, 100 panics (`Unknown command id`), modeled as failure. -/
def response (header : PacketHeader) : Parser Response := fun input =>
  if header.pkt_id = 0 then nomMap u32 Response.controllerCount input
  else if header.pkt_id = 1 then nomMap controller_data Response.controllerData input
  else if header.pkt_id = 40 then nomMap u32 Response.protocolVersion input
  else if header.pkt_id = 100 then some (Response.deviceListUpdated, input)
  else none

end parse

/-! ## mod unparse (protocol.rs) -/

namespace unparse

/-- `unparse::u16`: `to_ne_bytes` of `x` as a `u16`, little-endian (the
byte decomposition realizes the reduction modulo `2^16`). -/
def u16 (x : Nat) : List Nat := [x % 256, x / 256 % 256]

/-- `unparse::u32`: `to_ne_bytes` of `x` as a `u32`, little-endian. -/
def u32 (x : Nat) : List Nat :=
  [x % 256, x / 256 % 256, x / 65536 % 256, x / 16777216 % 256]

/-- `unparse::color`: `u32::from_ne_bytes([r, g, b, 0])` then `unparse::u32`
(the `% 256` realizes the `u8` type of each channel). -/
def color (c : Rgb) : List Nat :=
  u32 (c.r % 256 + 256 * (c.g % 256) + 65536 * (c.b % 256))

end unparse

/-! ## Response::read_from and Request::write_to (protocol.rs) -/

/-- `Response::read_from`: `read_exact` 16 header bytes, parse the header
(`expect` on failure), `read_exact` exactly `pkt_size` payload bytes,
parse the payload by message id (`expect` on failure), then
`assert_eq!(rest.len(), 0)` — leftover payload bytes are fatal.  Returns
the decoded response together with the unread remainder of the stream. -/
def Response.read_from (input : List Nat) : Option (Response × List Nat) :=
  match nomTake 16 input with
  | none => none
  | some (header_bytes, input) =>
    match parse.packet_header header_bytes with
    | none => none
    | some (header, _) =>
      match nomTake header.pkt_size input with
      | none => none
      | some (data_bytes, input) =>
        match parse.response header data_bytes with
        | none => none
        | some (resp, rest) =>
          if rest.length = 0 then some (resp, input) else none

/-- `Request::write_to`: build the output buffer — the `"ORGB"` magic, the
header fields, then the variant's payload.  The `todo!()` arms panic,
modeled as `none`.  Returns the bytes written to the socket. -/
def Request.write_to : Request → Option (List Nat)
  | Request.controllerCount =>
    some ([79, 82, 71, 66] ++ unparse.u32 0 ++ unparse.u32 0 ++ unparse.u32 0)
  | Request.protocolVersion v =>
    some ([79, 82, 71, 66] ++ unparse.u32 0 ++ unparse.u32 40 ++ unparse.u32 4 ++
      unparse.u32 v)
  | Request.controllerData controller_idx =>
    some ([79, 82, 71, 66] ++ unparse.u32 controller_idx ++ unparse.u32 1 ++
      unparse.u32 0)
  | Request.setClientName name =>
    some ([79, 82, 71, 66] ++ unparse.u32 0 ++ unparse.u32 50 ++
      unparse.u32 (name.length + 1) ++ name ++ [0])
  | Request.updateLeds controller_idx colors =>
    some ([79, 82, 71, 66] ++ unparse.u32 controller_idx ++ unparse.u32 1050 ++
      unparse.u32 (4 + 2 + 4 * colors.length) ++
      unparse.u32 (4 + 2 + 4 * colors.length) ++
      unparse.u16 colors.length ++
      (colors.map unparse.color).flatten)
  | _ => none

/-! ## Connection engine (connection.rs) -/

/-- `NUM_CONNECTION_TRIES`. -/
def NUM_CONNECTION_TRIES : Nat := 10

/-- The connect loop of `Connection::start`, abstracted over an oracle
`f : Nat → Bool` telling whether the `k`-th `TcpStream::connect` attempt
(0-based) succeeds.  `num_tries` counts failed attempts so far, as in the
source; a successful attempt returns its index, and reaching the retry
bound panics (`none`).  Between two consecutive attempts the code sleeps
one second (`Duration::from_secs(1)`). -/
def connectLoopAux (f : Nat → Bool) (num_tries : Nat) : Option Nat :=
  if f num_tries then some num_tries
  else if NUM_CONNECTION_TRIES ≤ num_tries + 1 then none
  else connectLoopAux f (num_tries + 1)
termination_by NUM_CONNECTION_TRIES - num_tries
decreasing_by
  simp only [NUM_CONNECTION_TRIES] at *
  omega

/-- `Connection::start`, reduced to its connect-retry loop: `some k` means
a `Connection` is produced by the `k`-th attempt, `none` means the fatal
startup panic. -/
def Connection.start (f : Nat → Bool) : Option Nat :=
  connectLoopAux f 0

/-- The initial value of the `devices_updated` flag set by
`Connection::start`: `AtomicBool::new(true)`. -/
def Connection.devices_updated_init : Bool := true

/-- `Connection::devices_updated_reset`: `swap(false)` on the shared flag —
returns the previous value and the new flag state. -/
def Connection.devices_updated_reset (flag : Bool) : Bool × Bool := (flag, false)

/-- The routing performed by the reader thread of `Connection::start`, one
decoded message at a time: a `DeviceListUpdated` notification stores `true`
into the shared flag and is not forwarded; every other response is sent on
the rendezvous channel, whence `recv()` yields responses in this order.
Returns the channel contents in order and the number of flag stores. -/
def readerRoute : List Response → List Response × Nat
  | [] => ([], 0)
  | Response.deviceListUpdated :: rest =>
    let (q, k) := readerRoute rest
    (q, k + 1)
  | r :: rest =>
    let (q, k) := readerRoute rest
    (r :: q, k)

/-- The reader thread's loop: repeatedly `Response::read_from` until the
byte stream is exhausted (fuel-bounded; each message consumes at least its
16-byte header).  Returns the decoded messages in arrival order. -/
def readAll (fuel : Nat) (input : List Nat) : Option (List Response) :=
  match fuel, input with
  | _, [] => some []
  | 0, _ => none
  | fuel + 1, input =>
    match Response.read_from input with
    | none => none
    | some (r, rest) =>
      match readAll fuel rest with
      | none => none
      | some rs => some (r :: rs)

/-! ## Concrete fixtures -/

/-- The minimal controller payload of the end-to-end scenario: total size,
type Dram, five empty strings, 0 modes, active mode 0, 0 zones, 2 LEDs
named "L0" and "L1" with value 0, and the colors (255,0,0) and (0,255,0). -/
def c3Payload : List Nat :=
  unparse.u32 61 ++ unparse.u32 1 ++
  [1, 0, 0] ++ [1, 0, 0] ++ [1, 0, 0] ++ [1, 0, 0] ++ [1, 0, 0] ++
  unparse.u16 0 ++ unparse.u32 0 ++
  unparse.u16 0 ++
  unparse.u16 2 ++ ([3, 0, 76, 48, 0] ++ unparse.u32 0) ++ ([3, 0, 76, 49, 0] ++ unparse.u32 0) ++
  unparse.u16 2 ++ [255, 0, 0, 0] ++ [0, 255, 0, 0]

/-- The `ControllerData` value the fixture payload decodes to
("L0" = bytes [76, 48], "L1" = bytes [76, 49]). -/
def cdFixture : ControllerData :=
  { ty := .dram, name := [], description := [], version := [], serial := [],
    location := [], modes := [], active_mode := 0, zones := [],
    leds := [{ name := [76, 48], value := 0 }, { name := [76, 49], value := 0 }],
    colors := [{ r := 255, g := 0, b := 0 }, { r := 0, g := 255, b := 0 }] }

/-- The byte sequence [controller-count reply (count 1)]
[device-list-updated notification][controller-data reply (the fixture)]. -/
def c1Bytes : List Nat :=
  ([79, 82, 71, 66] ++ unparse.u32 0 ++ unparse.u32 0 ++ unparse.u32 4 ++ unparse.u32 1) ++
  ([79, 82, 71, 66] ++ unparse.u32 0 ++ unparse.u32 100 ++ unparse.u32 0) ++
  ([79, 82, 71, 66] ++ unparse.u32 0 ++ unparse.u32 1 ++ unparse.u32 61 ++ c3Payload)

/-- The three messages the reader thread decodes from `c1Bytes`, in order. -/
def c1Msgs : List Response :=
  [Response.controllerCount 1, Response.deviceListUpdated, Response.controllerData cdFixture]

/-- One encoded LED entry with an empty name and value 0 (name length 1,
terminator, u32 value), used to build count-mismatch fixtures. -/
def ledBlockC9 : List Nat := [1, 0, 0, 0, 0, 0, 0]

/-- One encoded color (0,0,0), used to build count-mismatch fixtures. -/
def colorBlockC9 : List Nat := [0, 0, 0, 0]

/-- A well-formed controller payload whose LED count and color count are
chosen independently: type Dram, five empty strings, 0 modes, active mode
0, 0 zones, then `nleds` LED entries and `ncolors` color entries. -/
def c9Bytes (nleds ncolors : Nat) : List Nat :=
  unparse.u32 0 ++ unparse.u32 1 ++
  unparse.u16 1 ++ [0] ++ unparse.u16 1 ++ [0] ++ unparse.u16 1 ++ [0] ++
  unparse.u16 1 ++ [0] ++ unparse.u16 1 ++ [0] ++
  unparse.u16 0 ++ unparse.u32 0 ++ unparse.u16 0 ++
  unparse.u16 nleds ++ (List.replicate nleds ledBlockC9).flatten ++
  unparse.u16 ncolors ++ (List.replicate ncolors colorBlockC9).flatten

/-- The `ControllerData` decoded from `c9Bytes nleds ncolors`: its `leds`
and `colors` vectors have the two independent lengths from the bytes. -/
def c9Data (nleds ncolors : Nat) : ControllerData :=
  { ty := .dram, name := [], description := [], version := [], serial := [],
    location := [], modes := [], active_mode := 0, zones := [],
    leds := List.replicate nleds { name := [], value := 0 },
    colors := List.replicate ncolors { r := 0, g := 0, b := 0 } }

/-! ## Helper lemmas -/

lemma take_length_append : ∀ (a b : List Nat), (a ++ b).take a.length = a
  | [], _ => rfl
  | x :: a, b => by simp [take_length_append a b]

lemma drop_length_append : ∀ (a b : List Nat), (a ++ b).drop a.length = b
  | [], _ => rfl
  | x :: a, b => by simp [drop_length_append a b]

lemma nomTake_append (a b : List Nat) : nomTake a.length (a ++ b) = some (a, b) := by
  simp [nomTake, take_length_append, drop_length_append]

lemma nomTag_self (t r : List Nat) : nomTag t (t ++ r) = some (t, r) := by
  simp [nomTag, take_length_append, drop_length_append]

lemma parse_u16_append (x : Nat) (r : List Nat) :
    parse.u16 (unparse.u16 x ++ r) = some (x % 65536, r) := by
  simp only [unparse.u16, parse.u16, List.cons_append, List.nil_append]
  congr 1
  congr 1
  omega

lemma parse_u32_append (x : Nat) (r : List Nat) :
    parse.u32 (unparse.u32 x ++ r) = some (x % 4294967296, r) := by
  simp only [unparse.u32, parse.u32, List.cons_append, List.nil_append]
  congr 1
  congr 1
  omega

lemma parse_u32_self (x : Nat) : parse.u32 (unparse.u32 x) = some (x % 4294967296, []) := by
  simpa using parse_u32_append x []

lemma nullTerminatedString_append (s r : List Nat) (hs : isUtf8 s = true)
    (hlen : s.length + 1 < 65536) :
    parse.null_terminated_string (s.length + 1) (s ++ 0 :: r) = some (s, r) := by
  unfold parse.null_terminated_string
  have h1 : (s.length + 1 + 65535) % 65536 = s.length := by omega
  rw [h1, nomTake_append]
  simp [hs, nomTag]

lemma nullTerminatedString_reject (s r : List Nat) (b : Nat) (hs : isUtf8 s = true)
    (hlen : s.length + 1 < 65536) (hb : b ≠ 0) :
    parse.null_terminated_string (s.length + 1) (s ++ b :: r) = none := by
  unfold parse.null_terminated_string
  have h1 : (s.length + 1 + 65535) % 65536 = s.length := by omega
  rw [h1, nomTake_append]
  simp [hs, nomTag, hb]

lemma nomCount_blocks {α : Type} (p : Parser α) :
    ∀ (ps : List (List Nat × α)) (r : List Nat),
      (∀ pr ∈ ps, ∀ q : List Nat, p (pr.1 ++ q) = some (pr.2, q)) →
      nomCount p ps.length ((ps.map Prod.fst).flatten ++ r) = some (ps.map Prod.snd, r) := by
  intro ps
  induction ps with
  | nil => intro r h; simp [nomCount]
  | cons pr ps ih =>
    intro r h
    obtain ⟨bs, v⟩ := pr
    have hp := h (bs, v) (by simp) ((ps.map Prod.fst).flatten ++ r)
    simp only [List.map_cons, List.flatten_cons, List.length_cons, List.append_assoc]
    simp only [nomCount]
    rw [hp]
    simp [ih r (fun pr hm q => h pr (by simp [hm]) q)]

lemma nomCount_replicate {α : Type} (p : Parser α) (blk : List Nat) (v : α)
    (hp : ∀ q : List Nat, p (blk ++ q) = some (v, q)) (n : Nat) (r : List Nat) :
    nomCount p n ((List.replicate n blk).flatten ++ r) = some (List.replicate n v, r) := by
  have h := nomCount_blocks p (List.replicate n (blk, v)) r (by
    intro pr hm q
    have he : pr = (blk, v) := List.eq_of_mem_replicate hm
    rw [he]
    exact hp q)
  simpa using h

lemma nomCount_replicate_nil {α : Type} (p : Parser α) (blk : List Nat) (v : α)
    (hp : ∀ q : List Nat, p (blk ++ q) = some (v, q)) (n : Nat) :
    nomCount p n (List.replicate n blk).flatten = some (List.replicate n v, []) := by
  simpa using nomCount_replicate p blk v hp n []

lemma nomCount_u32_cells (cells : List Nat) (hc : ∀ x ∈ cells, x < 4294967296)
    (r : List Nat) :
    nomCount parse.u32 cells.length ((cells.map unparse.u32).flatten ++ r) =
      some (cells, r) := by
  have h := nomCount_blocks parse.u32 (cells.map fun x => (unparse.u32 x, x)) r (by
    intro pr hm q
    simp only [List.mem_map] at hm
    obtain ⟨x, hx, he⟩ := hm
    rw [← he]
    simp only [parse_u32_append]
    rw [Nat.mod_eq_of_lt (hc x hx)])
  simpa [List.map_map, Function.comp_def] using h

lemma nts_success (L : Nat) (input s rest : List Nat)
    (h : parse.null_terminated_string L input = some (s, rest)) :
    s = input.take ((L + 65535) % 65536) ∧ (L + 65535) % 65536 ≤ input.length := by
  unfold parse.null_terminated_string nomTake at h
  by_cases hle : (L + 65535) % 65536 ≤ input.length
  · rw [if_pos hle] at h
    dsimp only at h
    by_cases hu : isUtf8 (input.take ((L + 65535) % 65536))
    · rw [if_pos hu] at h
      cases ht : nomTag [0] (input.drop ((L + 65535) % 65536)) with
      | none => rw [ht] at h; cases h
      | some pr =>
        rw [ht] at h
        obtain ⟨t0, rest0⟩ := pr
        dsimp only at h
        simp only [Option.some.injEq, Prod.mk.injEq] at h
        exact ⟨h.1.symm, hle⟩
    · rw [if_neg hu] at h; cases h
  · rw [if_neg hle] at h; cases h

lemma nts_one (R : List Nat) : parse.null_terminated_string 1 (0 :: R) = some ([], R) := by
  have := nullTerminatedString_append [] R rfl (by norm_num)
  simpa using this

lemma parse_led_block (R : List Nat) :
    parse.led (ledBlockC9 ++ R) = some (Led.mk [] 0, R) := rfl

lemma parse_color_block (R : List Nat) :
    parse.color (colorBlockC9 ++ R) = some (Rgb.mk 0 0 0, R) := rfl

lemma packet_header_bytes (dev id size : Nat)
    (hdev : dev < 4294967296) (hid : id < 4294967296) (hsize : size < 4294967296) :
    parse.packet_header ([79, 82, 71, 66] ++ unparse.u32 dev ++ unparse.u32 id ++
      unparse.u32 size) = some ({ dev_idx := dev, pkt_id := id, pkt_size := size }, []) := by
  unfold parse.packet_header
  simp only [List.append_assoc]
  rw [nomTag_self]
  dsimp only
  rw [parse_u32_append, Nat.mod_eq_of_lt hdev]
  dsimp only
  rw [parse_u32_append, Nat.mod_eq_of_lt hid]
  dsimp only
  rw [parse_u32_self, Nat.mod_eq_of_lt hsize]

lemma unparse_color_bytes (c : Rgb) (h1 : c.r < 256) (h2 : c.g < 256) (h3 : c.b < 256) :
    unparse.color c = [c.r, c.g, c.b, 0] := by
  simp only [unparse.color, unparse.u32, List.cons.injEq, and_true]
  omega

lemma length_flatten_colors (colors : List Rgb) :
    ((colors.map fun c => [c.r, c.g, c.b, 0]).flatten).length = 4 * colors.length := by
  induction colors with
  | nil => rfl
  | cons c cs ih => simp [ih]; omega

/-! ## Claim theorems -/

/-- C1: for a connection whose socket delivers [controller-count reply]
[device-list-updated notification][controller-data reply], the reader
thread decodes exactly those three messages in order; routing them
delivers the controller-count response then the controller-data response
(in that order) to the rendezvous channel that `recv()` reads, stores
`true` into the devices-updated flag exactly once (so
`devices_updated_reset()` observes `true` for it exactly once), and never
places the notification on the channel. -/
theorem c1_ordering_invariant :
    readAll c1Bytes.length c1Bytes = some c1Msgs ∧
    readerRoute c1Msgs =
      ([Response.controllerCount 1, Response.controllerData cdFixture], 1) ∧
    Response.deviceListUpdated ∉ (readerRoute c1Msgs).1 := by
  decide

/-- C2: `Response::read_from` reads exactly 16 header bytes, then exactly
`pkt_size` payload bytes, leaving the rest of the stream untouched;
payload decoding is dispatched by message id (0 controller count, 1
controller data, 40 protocol version, 100 device-list-updated with no
bytes consumed); any other id is fatal, and leftover payload bytes after
a successful decode are fatal. -/
theorem c2_framing (dev id size : Nat) (payload rest : List Nat)
    (hdev : dev < 4294967296) (hid : id < 4294967296) (hsize : size < 4294967296)
    (hlen : payload.length = size) :
    Response.read_from ([79, 82, 71, 66] ++ unparse.u32 dev ++ unparse.u32 id ++
        unparse.u32 size ++ (payload ++ rest)) =
      (match parse.response { dev_idx := dev, pkt_id := id, pkt_size := size } payload with
       | some (r, []) => some (r, rest)
       | _ => none) ∧
    (id ≠ 0 → id ≠ 1 → id ≠ 40 → id ≠ 100 →
      parse.response { dev_idx := dev, pkt_id := id, pkt_size := size } payload = none) ∧
    parse.response { dev_idx := dev, pkt_id := 0, pkt_size := size } payload =
      nomMap parse.u32 Response.controllerCount payload ∧
    parse.response { dev_idx := dev, pkt_id := 1, pkt_size := size } payload =
      nomMap parse.controller_data Response.controllerData payload ∧
    parse.response { dev_idx := dev, pkt_id := 40, pkt_size := size } payload =
      nomMap parse.u32 Response.protocolVersion payload ∧
    parse.response { dev_idx := dev, pkt_id := 100, pkt_size := size } payload =
      some (Response.deviceListUpdated, payload) := by
  subst hlen
  refine ⟨?_, ?_, rfl, rfl, rfl, rfl⟩
  · unfold Response.read_from
    have hhdr : ([79, 82, 71, 66] ++ unparse.u32 dev ++ unparse.u32 id ++
        unparse.u32 payload.length).length = 16 := by
      simp [unparse.u32]
    have htake : nomTake 16 ([79, 82, 71, 66] ++ unparse.u32 dev ++ unparse.u32 id ++
        unparse.u32 payload.length ++ (payload ++ rest)) =
        some ([79, 82, 71, 66] ++ unparse.u32 dev ++ unparse.u32 id ++
          unparse.u32 payload.length, payload ++ rest) := by
      rw [← hhdr]
      exact nomTake_append _ _
    rw [htake]
    dsimp only
    rw [packet_header_bytes dev id payload.length hdev hid hsize]
    dsimp only
    rw [nomTake_append]
    dsimp only
    cases hr : parse.response (PacketHeader.mk dev id payload.length) payload with
    | none => rfl
    | some pr =>
      obtain ⟨r, leftover⟩ := pr
      cases leftover with
      | nil => rfl
      | cons x xs => simp
  · intro h0 h1 h40 h100
    simp [parse.response, h0, h1, h40, h100]

/-- C2 witness: a protocol-version reply with a one-byte remainder follows
the framing equation, and an unknown message id 41 is fatal. -/
theorem c2_witness :
    (Response.read_from ([79, 82, 71, 66] ++ unparse.u32 0 ++ unparse.u32 40 ++
        unparse.u32 4 ++ (unparse.u32 7 ++ [9])) =
      (match parse.response { dev_idx := 0, pkt_id := 40, pkt_size := 4 } (unparse.u32 7) with
       | some (r, []) => some (r, [9])
       | _ => none)) ∧
    Response.read_from ([79, 82, 71, 66] ++ unparse.u32 0 ++ unparse.u32 41 ++
        unparse.u32 0 ++ ([] ++ [])) = none := by
  constructor
  · exact (c2_framing 0 40 4 (unparse.u32 7) [9] (by norm_num) (by norm_num) (by norm_num)
      (by simp [unparse.u32])).1
  · have h := c2_framing 0 41 0 [] [] (by norm_num) (by norm_num) (by norm_num) rfl
    rw [h.1, h.2.1 (by norm_num) (by norm_num) (by norm_num) (by norm_num)]

/-- C3: decoding the minimal controller payload (type Dram, five empty
strings, 0 modes, active mode 0, 0 zones, 2 LEDs named "L0"/"L1" with
value 0, colors (255,0,0) and (0,255,0)) succeeds, consumes the whole
payload, and yields `ty = Dram`, two LEDs, and exactly those colors. -/
theorem c3_controller_data_fixture :
    parse.controller_data c3Payload = some (cdFixture, []) ∧
    cdFixture.ty = ControllerType.dram ∧
    cdFixture.leds.length = 2 ∧
    cdFixture.colors = [{ r := 255, g := 0, b := 0 }, { r := 0, g := 255, b := 0 }] := by
  decide

/-- C4: the string codec.  Encoding (`SetClientName`) emits a length field
of `N + 1` for a name of byte-length `N`, followed by exactly `N + 1`
bytes — the name then one null terminator — and the length field decodes
back to `N + 1` whenever it fits in a u32.  Decoding with length field
`L ≥ 1` consumes `L - 1` content bytes and then exactly one terminator
byte, returning the content and the untouched rest, and rejects the
buffer when the terminator byte is not zero. -/
theorem c4_string_codec (name content rest : List Nat) (L b : Nat)
    (hL1 : 1 ≤ L) (hL : L < 65536)
    (hcontent : content.length = L - 1)
    (hutf : isUtf8 content = true)
    (hb : b ≠ 0) :
    Request.write_to (Request.setClientName name) =
      some ([79, 82, 71, 66] ++ unparse.u32 0 ++ unparse.u32 50 ++
        unparse.u32 (name.length + 1) ++ (name ++ [0])) ∧
    (name ++ [0]).length = name.length + 1 ∧
    (name.length + 1 < 4294967296 →
      parse.u32 (unparse.u32 (name.length + 1)) = some (name.length + 1, [])) ∧
    parse.null_terminated_string L (content ++ 0 :: rest) = some (content, rest) ∧
    parse.null_terminated_string L (content ++ b :: rest) = none := by
  have hLc : L = content.length + 1 := by omega
  subst hLc
  refine ⟨by simp [Request.write_to], by simp, ?_, ?_, ?_⟩
  · intro hn
    rw [parse_u32_self, Nat.mod_eq_of_lt hn]
  · exact nullTerminatedString_append content rest hutf (by omega)
  · exact nullTerminatedString_reject content rest b hutf (by omega) hb

/-- C4 witness: the codec on the two-byte name "hi", content "hi" with
length field 3, a good terminator, and a bad terminator byte 7. -/
theorem c4_witness :
    Request.write_to (Request.setClientName [104, 105]) =
      some ([79, 82, 71, 66] ++ unparse.u32 0 ++ unparse.u32 50 ++
        unparse.u32 3 ++ ([104, 105] ++ [0])) ∧
    ([104, 105] ++ [0] : List Nat).length = 3 ∧
    ((2 : Nat) + 1 < 4294967296 →
      parse.u32 (unparse.u32 3) = some (3, [])) ∧
    parse.null_terminated_string 3 ([104, 105] ++ 0 :: [9]) = some ([104, 105], [9]) ∧
    parse.null_terminated_string 3 ([104, 105] ++ 7 :: [9]) = none := by
  have h := c4_string_codec [104, 105] [104, 105] [9] 3 7 (by norm_num) (by norm_num)
    (by norm_num) (by decide) (by norm_num)
  simpa using h

/-- C5: zone decode.  A zero 16-bit matrix byte length yields
`matrix = none` with no further matrix bytes consumed (the rest of the
input is returned untouched); a nonzero one makes the decoder consume a
u32 height, a u32 width, then exactly `height * width` u32 cells, which
are preserved verbatim in the decoded matrix data (in particular any
0xFFFFFFFF sentinel cell). -/
theorem c5_zone_matrix (nm : List Nat) (t a b c m h w : Nat) (zt : ZoneType)
    (cells rest : List Nat)
    (hnm : isUtf8 nm = true) (hname : nm.length + 1 < 65536)
    (htz : ZoneType.tryFrom t = some zt) (ht32 : t < 4294967296)
    (ha : a < 4294967296) (hb : b < 4294967296) (hc : c < 4294967296)
    (hm0 : m ≠ 0) (hm16 : m < 65536)
    (hh : h < 4294967296) (hw : w < 4294967296) (hhw : h * w < 4294967296)
    (hcells : cells.length = h * w) (hcv : ∀ x ∈ cells, x < 4294967296) :
    parse.zone (unparse.u16 (nm.length + 1) ++ (nm ++ (0 :: (unparse.u32 t ++
        (unparse.u32 a ++ (unparse.u32 b ++ (unparse.u32 c ++
        (unparse.u16 0 ++ rest)))))))) =
      some (Zone.mk nm zt a b c none, rest) ∧
    parse.zone (unparse.u16 (nm.length + 1) ++ (nm ++ (0 :: (unparse.u32 t ++
        (unparse.u32 a ++ (unparse.u32 b ++ (unparse.u32 c ++
        (unparse.u16 m ++ (unparse.u32 h ++ (unparse.u32 w ++
        ((cells.map unparse.u32).flatten ++ rest))))))))))) =
      some (Zone.mk nm zt a b c (some (ZoneMatrix.mk h w cells)), rest) := by
  constructor
  · unfold parse.zone
    rw [parse_u16_append, Nat.mod_eq_of_lt hname]
    dsimp only
    rw [nullTerminatedString_append nm _ hnm hname]
    dsimp only
    unfold parse.zone_type
    rw [parse_u32_append, Nat.mod_eq_of_lt ht32]
    dsimp only
    rw [htz]
    dsimp only
    rw [parse_u32_append, Nat.mod_eq_of_lt ha]
    dsimp only
    rw [parse_u32_append, Nat.mod_eq_of_lt hb]
    dsimp only
    rw [parse_u32_append, Nat.mod_eq_of_lt hc]
    dsimp only
    rw [parse_u16_append, Nat.zero_mod]
    dsimp only
    rw [if_pos rfl]
  · unfold parse.zone
    rw [parse_u16_append, Nat.mod_eq_of_lt hname]
    dsimp only
    rw [nullTerminatedString_append nm _ hnm hname]
    dsimp only
    unfold parse.zone_type
    rw [parse_u32_append, Nat.mod_eq_of_lt ht32]
    dsimp only
    rw [htz]
    dsimp only
    rw [parse_u32_append, Nat.mod_eq_of_lt ha]
    dsimp only
    rw [parse_u32_append, Nat.mod_eq_of_lt hb]
    dsimp only
    rw [parse_u32_append, Nat.mod_eq_of_lt hc]
    dsimp only
    rw [parse_u16_append, Nat.mod_eq_of_lt hm16]
    dsimp only
    rw [if_neg hm0]
    unfold parse.zone_matrix
    rw [parse_u32_append, Nat.mod_eq_of_lt hh]
    dsimp only
    rw [parse_u32_append, Nat.mod_eq_of_lt hw]
    dsimp only
    rw [Nat.mod_eq_of_lt hhw, ← hcells, nomCount_u32_cells cells hcv rest]

/-- C5 witness: a matrix zone named "Z" decoded without a matrix, and with
a 1-by-1 matrix whose single cell is the 0xFFFFFFFF sentinel. -/
theorem c5_witness :
    parse.zone (unparse.u16 2 ++ ([90] ++ (0 :: (unparse.u32 2 ++ (unparse.u32 0 ++
        (unparse.u32 1 ++ (unparse.u32 1 ++ (unparse.u16 0 ++ [])))))))) =
      some (Zone.mk [90] ZoneType.matrix 0 1 1 none, []) ∧
    parse.zone (unparse.u16 2 ++ ([90] ++ (0 :: (unparse.u32 2 ++ (unparse.u32 0 ++
        (unparse.u32 1 ++ (unparse.u32 1 ++ (unparse.u16 4 ++ (unparse.u32 1 ++
        (unparse.u32 1 ++ (([4294967295].map unparse.u32).flatten ++ []))))))))))) =
      some (Zone.mk [90] ZoneType.matrix 0 1 1
        (some (ZoneMatrix.mk 1 1 [4294967295])), []) := by
  have h := c5_zone_matrix [90] 2 0 1 1 4 1 1 ZoneType.matrix [4294967295] []
    (by decide) (by decide) rfl (by norm_num) (by norm_num) (by norm_num) (by norm_num)
    (by norm_num) (by norm_num) (by norm_num) (by norm_num) (by norm_num)
    (by decide) (by decide)
  simpa using h

/-- C6: `Connection::start` makes at most 10 connection attempts.  If any
of the first 10 attempts succeeds (all earlier ones having failed), start
returns a connection produced by that attempt — in particular, 9 refusals
followed by an accepting 10th attempt succeed; if all 10 attempts fail,
start is the fatal startup panic and no connection is produced; and
conversely every successful start comes from an attempt with index below
10 whose predecessors all failed, so attempts 10, 11, ... are never made.
(Between two consecutive attempts the code sleeps one second; real time
is not part of the embedding.) -/
theorem c6_retry (f : Nat → Bool) :
    (∀ k, k < 10 → (∀ j, j < k → f j = false) → f k = true →
      Connection.start f = some k) ∧
    ((∀ k, k < 10 → f k = false) → Connection.start f = none) ∧
    (∀ k, Connection.start f = some k →
      k < 10 ∧ f k = true ∧ ∀ j, j < k → f j = false) := by
  have step : ∀ n, n + 1 < 10 → f n = false →
      connectLoopAux f n = connectLoopAux f (n + 1) := by
    intro n hn hf
    rw [connectLoopAux]
    simp only [hf, Bool.false_eq_true, if_false, NUM_CONNECTION_TRIES]
    rw [if_neg (by omega)]
  have hit : ∀ n, f n = true → connectLoopAux f n = some n := by
    intro n hf
    rw [connectLoopAux, hf]
    rfl
  have walk : ∀ k, k < 10 → (∀ j, j < k → f j = false) →
      connectLoopAux f 0 = connectLoopAux f k := by
    intro k
    induction k with
    | zero => intro _ _; rfl
    | succ k ih =>
      intro hk hfail
      rw [ih (by omega) (fun j hj => hfail j (by omega))]
      exact step k (by omega) (hfail k (by omega))
  have aux_some : ∀ m n k, n < 10 → 10 - n ≤ m → connectLoopAux f n = some k →
      k < 10 ∧ f k = true ∧ ∀ j, n ≤ j → j < k → f j = false := by
    intro m
    induction m with
    | zero => intro n k hn hm _; omega
    | succ m ih =>
      intro n k hn hm hsome
      rw [connectLoopAux] at hsome
      simp only [NUM_CONNECTION_TRIES] at hsome
      by_cases hf : f n = true
      · rw [if_pos hf] at hsome
        have hnk : n = k := Option.some.inj hsome
        subst hnk
        exact ⟨hn, hf, fun j h1 h2 => by omega⟩
      · rw [if_neg hf] at hsome
        by_cases hb : 10 ≤ n + 1
        · rw [if_pos hb] at hsome
          cases hsome
        · rw [if_neg hb] at hsome
          have hrec := ih (n + 1) k (by omega) (by omega) hsome
          refine ⟨hrec.1, hrec.2.1, fun j h1 h2 => ?_⟩
          rcases Nat.eq_or_lt_of_le h1 with he | h1x
          · rw [← he]
            exact Bool.eq_false_iff.mpr hf
          · exact hrec.2.2 j (by omega) h2
  refine ⟨?_, ?_, ?_⟩
  · intro k hk hfail hk_true
    unfold Connection.start
    rw [walk k hk hfail]
    exact hit k hk_true
  · intro hfail
    unfold Connection.start
    rw [walk 9 (by norm_num) (fun j hj => hfail j (by omega))]
    rw [connectLoopAux]
    simp only [hfail 9 (by norm_num), Bool.false_eq_true, if_false, NUM_CONNECTION_TRIES]
    rw [if_pos (by omega)]
  · intro k hsome
    have h := aux_some 10 0 k (by norm_num) (by norm_num) hsome
    exact ⟨h.1, h.2.1, fun j hj => h.2.2 j (Nat.zero_le j) hj⟩

/-- C6 witness: an immediately available server succeeds on attempt 0,
nine refusals then an accept succeed on attempt 9 (0-based), ten refusals
produce no connection, and the successful attempt 0 is characterized by
the at-most-10 bound. -/
theorem c6_witness :
    Connection.start (fun _ => true) = some 0 ∧
    Connection.start (fun k => decide (k = 9)) = some 9 ∧
    Connection.start (fun _ => false) = none ∧
    ((0 : Nat) < 10 ∧ (fun _ => true : Nat → Bool) 0 = true ∧
      ∀ j, j < 0 → (fun _ => true : Nat → Bool) j = false) := by
  have h0 : Connection.start (fun _ => true) = some 0 :=
    (c6_retry (fun _ => true)).1 0 (by norm_num) (fun j hj => absurd hj (by omega)) rfl
  refine ⟨h0, ?_, ?_, ?_⟩
  · exact (c6_retry (fun k => decide (k = 9))).1 9 (by norm_num) (by decide) (by decide)
  · exact (c6_retry (fun _ => false)).2.1 (fun _ _ => rfl)
  · exact (c6_retry (fun _ => true)).2.2 0 h0

/-- C7: the devices-updated flag starts set, so the first
`devices_updated_reset()` after `Connection::start` returns `true`; the
reset is an atomic test-and-clear returning the previous value and leaving
the flag `false`, so two consecutive calls with no intervening
notification return `true` then `false`. -/
theorem c7_devices_updated_flag :
    Connection.devices_updated_reset Connection.devices_updated_init = (true, false) ∧
    (∀ b : Bool, Connection.devices_updated_reset b = (b, false)) ∧
    Connection.devices_updated_reset
      (Connection.devices_updated_reset Connection.devices_updated_init).2 = (false, false) := by
  decide

/-- C8: encoding `Request::UpdateLeds` for controller `i` and `n` colors
writes the "ORGB" magic, device index `i`, message id 1050 and payload
length `4 + 2 + 4 * n`, followed by a payload of exactly a redundant u32
length `4 + 2 + 4 * n`, a u16 color count `n`, and each color as the four
bytes [R, G, B, 0]; the payload's byte count equals the length field. -/
theorem c8_update_leds (i : Nat) (colors : List Rgb)
    (hc : ∀ c ∈ colors, c.r < 256 ∧ c.g < 256 ∧ c.b < 256) :
    Request.write_to (Request.updateLeds i colors) =
      some ([79, 82, 71, 66] ++ unparse.u32 i ++ unparse.u32 1050 ++
        unparse.u32 (4 + 2 + 4 * colors.length) ++
        unparse.u32 (4 + 2 + 4 * colors.length) ++
        unparse.u16 colors.length ++
        (colors.map fun c => [c.r, c.g, c.b, 0]).flatten) ∧
    (unparse.u32 (4 + 2 + 4 * colors.length) ++ unparse.u16 colors.length ++
        (colors.map fun c => [c.r, c.g, c.b, 0]).flatten).length =
      4 + 2 + 4 * colors.length := by
  constructor
  · have hmap : colors.map unparse.color = colors.map fun c => [c.r, c.g, c.b, 0] := by
      apply List.map_congr_left
      intro c hcmem
      exact unparse_color_bytes c (hc c hcmem).1 (hc c hcmem).2.1 (hc c hcmem).2.2
    simp only [Request.write_to, hmap]
  · simp only [List.length_append, length_flatten_colors, unparse.u32, unparse.u16]
    simp

/-- C8 witness: the update-LEDs request for controller 3 with the single
color (255, 0, 0). -/
theorem c8_witness :
    Request.write_to (Request.updateLeds 3 [{ r := 255, g := 0, b := 0 }]) =
      some ([79, 82, 71, 66] ++ unparse.u32 3 ++ unparse.u32 1050 ++
        unparse.u32 (4 + 2 + 4 * 1) ++ unparse.u32 (4 + 2 + 4 * 1) ++
        unparse.u16 1 ++ [255, 0, 0, 0]) ∧
    (unparse.u32 (4 + 2 + 4 * 1) ++ unparse.u16 1 ++ [255, 0, 0, 0] : List Nat).length =
      4 + 2 + 4 * 1 := by
  have h := c8_update_leds 3 [{ r := 255, g := 0, b := 0 }] (by decide)
  simpa using h

/-- C9: the controller-data decoder does not enforce
`colors.len() == leds.len()`: for every pair of differing counts (each
fitting in the u16 count fields), the well-formed payload carrying those
counts decodes successfully into a `ControllerData` whose `leds` and
`colors` vectors have exactly the differing lengths given in the bytes. -/
theorem c9_no_count_invariant (nleds ncolors : Nat)
    (h1 : nleds < 65536) (h2 : ncolors < 65536) (hne : nleds ≠ ncolors) :
    parse.controller_data (c9Bytes nleds ncolors) = some (c9Data nleds ncolors, []) ∧
    (c9Data nleds ncolors).leds.length = nleds ∧
    (c9Data nleds ncolors).colors.length = ncolors ∧
    (c9Data nleds ncolors).leds.length ≠ (c9Data nleds ncolors).colors.length := by
  have e1 : nleds % 65536 = nleds := Nat.mod_eq_of_lt h1
  have e2 : ncolors % 65536 = ncolors := Nat.mod_eq_of_lt h2
  have hled := nomCount_replicate parse.led ledBlockC9 (Led.mk [] 0) parse_led_block nleds
  have hcolor := nomCount_replicate_nil parse.color colorBlockC9 (Rgb.mk 0 0 0)
    parse_color_block ncolors
  refine ⟨?_, by simp [c9Data], by simp [c9Data], by simp [c9Data, hne]⟩
  unfold c9Bytes parse.controller_data
  simp [List.append_assoc, List.singleton_append, parse_u32_append, parse_u16_append,
    nts_one, parse.controller_type, ControllerType.tryFrom, nomCount, e1, e2,
    hled, hcolor, c9Data]

/-- C9 witness: one LED and two colors decode successfully with the
mismatched lengths. -/
theorem c9_witness :
    parse.controller_data (c9Bytes 1 2) = some (c9Data 1 2, []) ∧
    (c9Data 1 2).leds.length = 1 ∧
    (c9Data 1 2).colors.length = 2 ∧
    (c9Data 1 2).leds.length ≠ (c9Data 1 2).colors.length :=
  c9_no_count_invariant 1 2 (by norm_num) (by norm_num) (by norm_num)

/-- C10: the string decoder is not total in its length field — when the
16-bit length-with-terminator field is 0, the unguarded u16 subtraction
`len_with_terminator - 1` underflows (a panic in debug builds, a wrapped
demand of 65535 content bytes in release builds), so decoding never
succeeds with an empty string, and on every buffer shorter than 65535
bytes it fails outright instead of returning the empty string or a
graceful decode error. -/
theorem c10_zero_length_underflow :
    (∀ input rest : List Nat, parse.null_terminated_string 0 input ≠ some ([], rest)) ∧
    (∀ input : List Nat, input.length < 65535 →
      parse.null_terminated_string 0 input = none) := by
  constructor
  · intro input rest h
    obtain ⟨hs, hle⟩ := nts_success 0 input [] rest h
    have := congrArg List.length hs
    rw [List.length_take] at this
    simp only [List.length_nil] at this
    omega
  · intro input hlt
    unfold parse.null_terminated_string nomTake
    rw [show ((0 + 65535) % 65536) = 65535 from rfl, if_neg (by omega)]

/-- C10 witness: with length field 0, a three-byte buffer fails and the
empty buffer does not decode to the empty string. -/
theorem c10_witness :
    parse.null_terminated_string 0 [1, 2, 3] = none ∧
    parse.null_terminated_string 0 [] ≠ some ([], []) :=
  ⟨c10_zero_length_underflow.2 [1, 2, 3] (by norm_num),
   c10_zero_length_underflow.1 [] []⟩
